import Mathlib

/-!
Verification of the user CRUD service (`src/models.py`, `src/main.py`).

The service is a thin HTTP layer over a single MongoDB collection named
"users" in the database "college".  We embed:

* the entity schema (`Gender`, `Role`, `User`) and its pydantic-style
  validation from raw input;
* the persistence gateway: the five collection operations the handlers
  invoke (`insert_one`, `find_one` by id, `find_one` by email, `find`,
  `update_one` with a set-merge patch, `delete_one`), as explicit state
  passing over a list of stored documents.  MongoDB assigns a fresh,
  non-empty identifier on insert and `find_one`/`update_one`/`delete_one`
  act on the first matching document in natural order.  Each gateway call
  is also recorded in a log, pairing the collection name with the
  operation, so that theorems can count the gateway calls a handler makes;
* the request handlers exactly as written in `src/main.py`, returning the
  Python function's return value on success or the raised `HTTPException`
  (status code and detail) on the error path.  Response bodies are the
  values the handler functions return; framework-level response
  serialization is an external collaborator and is not modelled.
-/

namespace FastapiNosql

/-- `class Gender(str, Enum)` from `src/models.py`. -/
inductive Gender where
  | male
  | female
deriving DecidableEq

/-- `class Role(str, Enum)` from `src/models.py`. -/
inductive Role where
  | admin
  | user
  | student
  | teacher
deriving DecidableEq

/-- `class User(BaseModel)` from `src/models.py`: the validated entity. -/
structure User where
  first_name : String
  last_name : String
  middle_name : Option String
  gender : Gender
  email_address : String
  phone_number : String
  roles : List Role
deriving DecidableEq

/-- Raw, not yet validated input to the create endpoint: the enum-typed
fields arrive as plain strings. -/
structure RawUser where
  first_name : String
  last_name : String
  middle_name : Option String
  gender : String
  email_address : String
  phone_number : String
  roles : List String
deriving DecidableEq

/-- Pydantic coercion of a string into the closed `Gender` enumeration. -/
def Gender.parse (s : String) : Option Gender :=
  if s = "male" then some Gender.male
  else if s = "female" then some Gender.female
  else none

/-- Pydantic coercion of a string into the closed `Role` enumeration. -/
def Role.parse (s : String) : Option Role :=
  if s = "admin" then some Role.admin
  else if s = "user" then some Role.user
  else if s = "student" then some Role.student
  else if s = "teacher" then some Role.teacher
  else none

/-- Elementwise validation of the `roles` list; any unknown element makes
the whole list fail. -/
def parseRoles : List String → Option (List Role)
  | [] => some []
  | x :: xs =>
    match Role.parse x, parseRoles xs with
    | some r, some rs => some (r :: rs)
    | _, _ => none

/-- Pydantic validation of a raw payload against the `User` schema:
both enum-typed fields must parse, everything else is passed through. -/
def User.validate (r : RawUser) : Option User :=
  match Gender.parse r.gender, parseRoles r.roles with
  | some g, some rs =>
    some ⟨r.first_name, r.last_name, r.middle_name, g, r.email_address,
          r.phone_number, rs⟩
  | _, _ => none

/-- A document stored in the "users" collection: the dumped `User` fields
plus the database-assigned `_id`, and the two fields an update patch may
set (`other_names`, `age`), absent until some update sets them. -/
structure Doc where
  id : String
  first_name : String
  last_name : String
  middle_name : Option String
  gender : Gender
  email_address : String
  phone_number : String
  roles : List Role
  other_names : Option (List String)
  age : Option Int
deriving DecidableEq

/-- `user.model_dump()` inserted with a given `_id`: the `User` fields,
with the patch-only fields absent. -/
def User.toDoc (u : User) (i : String) : Doc :=
  ⟨i, u.first_name, u.last_name, u.middle_name, u.gender, u.email_address,
   u.phone_number, u.roles, none, none⟩

/-- Result object of `insert_one`. -/
structure InsertOneResult where
  inserted_id : String
deriving DecidableEq

/-- Result object of `update_one` (`matched_count`, `modified_count`). -/
structure UpdateResult where
  matched_count : Nat
  modified_count : Nat
deriving DecidableEq

/-- Result object of `delete_one`. -/
structure DeleteResult where
  deleted_count : Nat
deriving DecidableEq

/-- The state of the backing collection: the stored documents in natural
(insertion) order, a counter from which fresh object ids are minted, and a
log recording, newest first, each gateway call as
(collection name, operation name). -/
structure DBState where
  docs : List Doc
  next : Nat
  log : List (String × String)
deriving DecidableEq

/-- The collection before any create. -/
def DBState.empty : DBState := ⟨[], 0, []⟩

/-- The object id MongoDB assigns to the next inserted document; always a
non-empty string, and distinct from all ids minted before. -/
def freshId (s : DBState) : String := "oid" ++ toString s.next

/-- `collection.insert_one(user.model_dump())`: appends the dumped user
with a fresh id, no deduplication. -/
def coll_insert_one (c : String) (u : User) (s : DBState) :
    InsertOneResult × DBState :=
  (⟨freshId s⟩,
   ⟨s.docs ++ [User.toDoc u (freshId s)], s.next + 1,
    (c, "insert_one") :: s.log⟩)

/-- First document whose `_id` matches, in natural order. -/
def findById (i : String) : List Doc → Option Doc
  | [] => none
  | d :: ds => if d.id = i then some d else findById i ds

/-- First document whose `email_address` matches, in natural order. -/
def findByEmail (e : String) : List Doc → Option Doc
  | [] => none
  | d :: ds => if d.email_address = e then some d else findByEmail e ds

/-- `collection.find_one(\x7b"_id": i\x7d)`. -/
def coll_find_one_by_id (c : String) (i : String) (s : DBState) :
    Option Doc × DBState :=
  (findById i s.docs, ⟨s.docs, s.next, (c, "find_one") :: s.log⟩)

/-- `collection.find_one(\x7b"email_address": e\x7d)`. -/
def coll_find_one_by_email (c : String) (e : String) (s : DBState) :
    Option Doc × DBState :=
  (findByEmail e s.docs, ⟨s.docs, s.next, (c, "find_one") :: s.log⟩)

/-- `collection.find().to_list(None)`: every stored document. -/
def coll_find_all (c : String) (s : DBState) : List Doc × DBState :=
  (s.docs, ⟨s.docs, s.next, (c, "find") :: s.log⟩)

/-- `class UpdateUserDTO(BaseModel)` from `src/main.py`: both fields
optional; `none` means the field was not set in the request body, so
`model_dump(exclude_unset=True)` omits it. -/
structure UpdateUserDTO where
  other_names : Option (List String)
  age : Option Int
deriving DecidableEq

/-- The MongoDB `$set` of `user_update.model_dump(exclude_unset=True)`:
fields present in the patch are written, all other fields of the document
are left untouched. -/
def applySet (p : UpdateUserDTO) (d : Doc) : Doc :=
  { d with
    other_names :=
      match p.other_names with
      | some v => some v
      | none => d.other_names
    age :=
      match p.age with
      | some v => some v
      | none => d.age }

/-- `update_one` over the document list: rewrites the first document whose
email matches; `matched_count` is 1 when one matched, and
`modified_count` is 1 only when the `$set` actually changed it. -/
def updateFirst (e : String) (f : Doc → Doc) :
    List Doc → List Doc × UpdateResult
  | [] => ([], ⟨0, 0⟩)
  | d :: ds =>
    if d.email_address = e then
      (f d :: ds, ⟨1, if f d = d then 0 else 1⟩)
    else
      let r := updateFirst e f ds
      (d :: r.1, r.2)

/-- `collection.update_one(\x7b"email_address": e\x7d, \x7b"$set": patch\x7d)`. -/
def coll_update_one (c : String) (e : String) (p : UpdateUserDTO)
    (s : DBState) : UpdateResult × DBState :=
  ((updateFirst e (applySet p) s.docs).2,
   ⟨(updateFirst e (applySet p) s.docs).1, s.next,
    (c, "update_one") :: s.log⟩)

/-- `delete_one` over the document list: removes the first document whose
email matches and reports how many (0 or 1) were removed. -/
def deleteFirst (e : String) : List Doc → List Doc × Nat
  | [] => ([], 0)
  | d :: ds =>
    if d.email_address = e then (ds, 1)
    else
      let r := deleteFirst e ds
      (d :: r.1, r.2)

/-- `collection.delete_one(\x7b"email_address": e\x7d)`. -/
def coll_delete_one (c : String) (e : String) (s : DBState) :
    DeleteResult × DBState :=
  (⟨(deleteFirst e s.docs).2⟩,
   ⟨(deleteFirst e s.docs).1, s.next, (c, "delete_one") :: s.log⟩)

/-- A raised `HTTPException(status_code, detail)`. -/
structure HTTPError where
  status : Nat
  detail : String
deriving DecidableEq

/-- `POST /api/v1/create-user` handler `insert_user` from `src/main.py`:
inserts the dumped user, then reads it back by the inserted id and
returns whatever that lookup produced. -/
def insert_user (u : User) (s : DBState) :
    Except HTTPError (Option Doc) × DBState :=
  let r1 := coll_insert_one "users" u s
  let r2 := coll_find_one_by_id "users" r1.1.inserted_id r1.2
  (Except.ok r2.1, r2.2)

/-- `GET /api/v1/read-all-users` handler `read_users` from `src/main.py`. -/
def read_users (s : DBState) : Except HTTPError (List Doc) × DBState :=
  let r := coll_find_all "users" s
  (Except.ok r.1, r.2)

/-- `GET /api/v1/read-user/.email_address.` handler `read_user_by_email`
from `src/main.py`: 404 "User Not Found" when the lookup misses. -/
def read_user_by_email (e : String) (s : DBState) :
    Except HTTPError Doc × DBState :=
  let r := coll_find_one_by_email "users" e s
  match r.1 with
  | none => (Except.error ⟨404, "User Not Found"⟩, r.2)
  | some u => (Except.ok u, r.2)

/-- `PUT /api/v1/update-user/.email_address.` handler `update_user` from
`src/main.py`: 404 when `modified_count == 0`; otherwise it performs one
more `find_one` (whose result it discards) and returns the raw
`update_one` result object. -/
def update_user (e : String) (p : UpdateUserDTO) (s : DBState) :
    Except HTTPError UpdateResult × DBState :=
  let r := coll_update_one "users" e p s
  if r.1.modified_count = 0 then
    (Except.error ⟨404, "User not found or no update needed"⟩, r.2)
  else
    let r2 := coll_find_one_by_email "users" e r.2
    (Except.ok r.1, r2.2)

/-- `DELETE /api/v1/delete-user/.email_address.` handler
`delete_user_by_email` from `src/main.py`: 404 "User Not Found" when
`deleted_count == 0`, otherwise the success message. -/
def delete_user_by_email (e : String) (s : DBState) :
    Except HTTPError String × DBState :=
  let r := coll_delete_one "users" e s
  if r.1.deleted_count = 0 then
    (Except.error ⟨404, "User Not Found"⟩, r.2)
  else
    (Except.ok "User deleted Successfully", r.2)

/-- The create endpoint as seen by a client: pydantic validates the raw
body against the `User` schema before the handler runs; a validation
failure is a 422 and the handler body never executes. -/
def create_user_endpoint (r : RawUser) (s : DBState) :
    Except HTTPError (Option Doc) × DBState :=
  match User.validate r with
  | none => (Except.error ⟨422, "validation error"⟩, s)
  | some u => insert_user u s

/-- A sequence of creates, carried out left to right. -/
def createMany (us : List User) (s : DBState) : DBState :=
  us.foldl (fun t u => (insert_user u t).2) s

/-- The concrete payload of the spec's sample scenario. -/
def annLee : User :=
  ⟨"Ann", "Lee", none, Gender.female, "ann@x.com", "555", [Role.student]⟩

/-- `annLee` as stored with object id "oid0". -/
def annDoc : Doc := User.toDoc annLee "oid0"

/-- A one-document collection state holding `annDoc`. -/
def annState : DBState := ⟨[annDoc], 1, []⟩

/-- A raw payload whose gender is outside the `Gender` enumeration. -/
def badRaw : RawUser :=
  ⟨"Ann", "Lee", none, "other", "ann@x.com", "555", ["student"]⟩

/-- `annDoc` after some update already set both patchable fields. -/
def annDoc2 : Doc :=
  { annDoc with other_names := some ["Ann", "Marie"], age := some 21 }

/-- A one-document collection state holding `annDoc2`. -/
def annState2 : DBState := ⟨[annDoc2], 1, []⟩

/-! ## Helper lemmas about the gateway primitives -/

theorem findById_append_of_ne (i : String) (l1 l2 : List Doc)
    (h : ∀ d ∈ l1, d.id ≠ i) :
    findById i (l1 ++ l2) = findById i l2 := by
  induction l1 with
  | nil => rfl
  | cons d ds ih =>
    have hd : d.id ≠ i := h d (List.mem_cons_self d ds)
    simp only [List.cons_append, findById, if_neg hd]
    exact ih (fun x hx => h x (List.mem_cons_of_mem d hx))

theorem findByEmail_append_of_ne (e : String) (l1 l2 : List Doc)
    (h : ∀ d ∈ l1, d.email_address ≠ e) :
    findByEmail e (l1 ++ l2) = findByEmail e l2 := by
  induction l1 with
  | nil => rfl
  | cons d ds ih =>
    have hd : d.email_address ≠ e := h d (List.mem_cons_self d ds)
    simp only [List.cons_append, findByEmail, if_neg hd]
    exact ih (fun x hx => h x (List.mem_cons_of_mem d hx))

theorem findByEmail_nomatch (e : String) (l : List Doc)
    (h : ∀ d ∈ l, d.email_address ≠ e) :
    findByEmail e l = none := by
  induction l with
  | nil => rfl
  | cons d ds ih =>
    have hd : d.email_address ≠ e := h d (List.mem_cons_self d ds)
    simp only [findByEmail, if_neg hd]
    exact ih (fun x hx => h x (List.mem_cons_of_mem d hx))

theorem updateFirst_split (e : String) (f : Doc → Doc) (l1 l2 : List Doc)
    (d : Doc) (hl1 : ∀ x ∈ l1, x.email_address ≠ e)
    (hd : d.email_address = e) :
    updateFirst e f (l1 ++ d :: l2) =
      (l1 ++ f d :: l2, ⟨1, if f d = d then 0 else 1⟩) := by
  induction l1 with
  | nil => simp [updateFirst, hd]
  | cons x xs ih =>
    have hx : x.email_address ≠ e := hl1 x (List.mem_cons_self x xs)
    simp only [List.cons_append, updateFirst, if_neg hx, List.append_eq]
    rw [ih (fun y hy => hl1 y (List.mem_cons_of_mem x hy))]

theorem updateFirst_nomatch (e : String) (f : Doc → Doc) (l : List Doc)
    (h : ∀ x ∈ l, x.email_address ≠ e) :
    updateFirst e f l = (l, ⟨0, 0⟩) := by
  induction l with
  | nil => rfl
  | cons x xs ih =>
    have hx : x.email_address ≠ e := h x (List.mem_cons_self x xs)
    simp only [updateFirst, if_neg hx]
    rw [ih (fun y hy => h y (List.mem_cons_of_mem x hy))]

theorem deleteFirst_split (e : String) (l1 l2 : List Doc) (d : Doc)
    (hl1 : ∀ x ∈ l1, x.email_address ≠ e) (hd : d.email_address = e) :
    deleteFirst e (l1 ++ d :: l2) = (l1 ++ l2, 1) := by
  induction l1 with
  | nil => simp [deleteFirst, hd]
  | cons x xs ih =>
    have hx : x.email_address ≠ e := hl1 x (List.mem_cons_self x xs)
    simp only [List.cons_append, deleteFirst, if_neg hx, List.append_eq]
    rw [ih (fun y hy => hl1 y (List.mem_cons_of_mem x hy))]

theorem deleteFirst_nomatch (e : String) (l : List Doc)
    (h : ∀ x ∈ l, x.email_address ≠ e) :
    deleteFirst e l = (l, 0) := by
  induction l with
  | nil => rfl
  | cons x xs ih =>
    have hx : x.email_address ≠ e := h x (List.mem_cons_self x xs)
    simp only [deleteFirst, if_neg hx]
    rw [ih (fun y hy => h y (List.mem_cons_of_mem x hy))]

theorem parseRoles_none (x : String) (xs : List String) (hx : x ∈ xs)
    (hp : Role.parse x = none) : parseRoles xs = none := by
  induction xs with
  | nil => cases hx
  | cons y ys ih =>
    rcases List.mem_cons.mp hx with hxy | hxy
    · subst hxy
      simp [parseRoles, hp]
    · have hys := ih hxy
      cases hpy : Role.parse y <;> simp [parseRoles, hpy, hys]

theorem insert_user_docs (u : User) (s : DBState) :
    (insert_user u s).2.docs = s.docs ++ [User.toDoc u (freshId s)] := rfl

theorem createMany_length (us : List User) (s : DBState) :
    (createMany us s).docs.length = s.docs.length + us.length := by
  induction us generalizing s with
  | nil => simp [createMany]
  | cons u us ih =>
    have step := ih ((insert_user u s).2)
    simp only [createMany, List.foldl_cons] at step ⊢
    rw [step, insert_user_docs]
    simp [List.length_append]
    omega

theorem freshId_ne_empty (s : DBState) : freshId s ≠ "" := by
  intro h
  have hlen := congrArg String.length h
  simp only [freshId, String.length_append] at hlen
  have h3 : ("oid" : String).length = 3 := rfl
  have h0 : ("" : String).length = 0 := rfl
  omega

/-! ## Claim theorems -/

/-- C1: For every valid User payload, performing the create operation and
then the get-by-email operation on that payload's email_address returns a
record equal to the input on every User field, with a non-empty
database-assigned identifier added.  (Stated for any collection state in
which the payload's email is not yet present, since lookups return the
first match in natural order.) -/
theorem create_then_get_roundtrip (u : User) (s : DBState)
    (hemail : ∀ d ∈ s.docs, d.email_address ≠ u.email_address) :
    ∃ d : Doc,
      (read_user_by_email u.email_address (insert_user u s).2).1 =
        Except.ok d ∧
      d.first_name = u.first_name ∧ d.last_name = u.last_name ∧
      d.middle_name = u.middle_name ∧ d.gender = u.gender ∧
      d.email_address = u.email_address ∧
      d.phone_number = u.phone_number ∧ d.roles = u.roles ∧
      d.id ≠ "" := by
  refine ⟨User.toDoc u (freshId s), ?_, rfl, rfl, rfl, rfl, rfl, rfl, rfl,
    freshId_ne_empty s⟩
  have hfind : findByEmail u.email_address ((insert_user u s).2.docs) =
      some (User.toDoc u (freshId s)) := by
    rw [insert_user_docs, findByEmail_append_of_ne _ _ _ hemail]
    simp [findByEmail, User.toDoc]
  simp [read_user_by_email, coll_find_one_by_email, hfind]

/-- C1 witness: the concrete scenario of the spec, starting from the empty
collection. -/
theorem create_then_get_roundtrip_witness :
    ∃ d : Doc,
      (read_user_by_email annLee.email_address
        (insert_user annLee DBState.empty).2).1 = Except.ok d ∧
      d.first_name = annLee.first_name ∧ d.last_name = annLee.last_name ∧
      d.middle_name = annLee.middle_name ∧ d.gender = annLee.gender ∧
      d.email_address = annLee.email_address ∧
      d.phone_number = annLee.phone_number ∧ d.roles = annLee.roles ∧
      d.id ≠ "" :=
  create_then_get_roundtrip annLee DBState.empty
    (fun d hd => absurd hd (List.not_mem_nil d))

/-- C2: For every valid User payload, the create operation persists the
record (appends it to the collection, no deduplication) and returns it as
the success response body: the stored document, equal to the dumped
payload, with its database-assigned identifier populated and non-empty. -/
theorem create_persists_and_returns (u : User) (s : DBState)
    (hfresh : ∀ d ∈ s.docs, d.id ≠ freshId s) :
    (insert_user u s).1 = Except.ok (some (User.toDoc u (freshId s))) ∧
    (insert_user u s).2.docs = s.docs ++ [User.toDoc u (freshId s)] ∧
    (User.toDoc u (freshId s)).id = freshId s ∧
    freshId s ≠ "" := by
  refine ⟨?_, rfl, rfl, freshId_ne_empty s⟩
  have hfind : findById (freshId s) (s.docs ++ [User.toDoc u (freshId s)]) =
      some (User.toDoc u (freshId s)) := by
    rw [findById_append_of_ne _ _ _ hfresh]
    simp [findById, User.toDoc]
  simp [insert_user, coll_insert_one, coll_find_one_by_id, hfind]

/-- C2 witness: the concrete scenario payload inserted into the empty
collection. -/
theorem create_persists_and_returns_witness :
    (insert_user annLee DBState.empty).1 =
      Except.ok (some (User.toDoc annLee (freshId DBState.empty))) ∧
    (insert_user annLee DBState.empty).2.docs =
      DBState.empty.docs ++ [User.toDoc annLee (freshId DBState.empty)] ∧
    (User.toDoc annLee (freshId DBState.empty)).id = freshId DBState.empty ∧
    freshId DBState.empty ≠ "" :=
  create_persists_and_returns annLee DBState.empty
    (fun d hd => absurd hd (List.not_mem_nil d))

/-- C3 counterexample: the create handler performs two persistence-gateway
operations (an `insert_one` followed by a `find_one`), so "at most one
gateway operation per handler" fails on a concrete request. -/
theorem create_makes_two_gateway_calls :
    (insert_user annLee DBState.empty).2.log.length = 2 ∧
    ¬ (insert_user annLee DBState.empty).2.log.length ≤ 1 := by decide

/-- C3 amended: every handler touches only the "users" collection; the
list, get-by-email and delete handlers perform exactly one gateway
operation per request, but the create handler performs exactly two
(`insert_one`, then `find_one` to read the inserted document back) and
the update handler performs at most two (`update_one`, then on the
success path a `find_one` whose result is discarded). -/
theorem handlers_touch_only_users :
    (∀ u s, ∃ c, (insert_user u s).2.log = c ++ s.log ∧
      c.length = 2 ∧ ∀ x ∈ c, x.1 = "users") ∧
    (∀ s, ∃ c, (read_users s).2.log = c ++ s.log ∧
      c.length = 1 ∧ ∀ x ∈ c, x.1 = "users") ∧
    (∀ e s, ∃ c, (read_user_by_email e s).2.log = c ++ s.log ∧
      c.length = 1 ∧ ∀ x ∈ c, x.1 = "users") ∧
    (∀ e p s, ∃ c, (update_user e (p : UpdateUserDTO) s).2.log = c ++ s.log ∧
      c.length ≤ 2 ∧ ∀ x ∈ c, x.1 = "users") ∧
    (∀ e s, ∃ c, (delete_user_by_email e s).2.log = c ++ s.log ∧
      c.length = 1 ∧ ∀ x ∈ c, x.1 = "users") := by
  refine ⟨?_, ?_, ?_, ?_, ?_⟩
  · intro u s
    exact ⟨[("users", "find_one"), ("users", "insert_one")], rfl, rfl,
      by simp⟩
  · intro s
    exact ⟨[("users", "find")], rfl, rfl, by simp⟩
  · intro e s
    refine ⟨[("users", "find_one")], ?_, rfl, by simp⟩
    simp only [read_user_by_email, coll_find_one_by_email]
    cases findByEmail e s.docs <;> rfl
  · intro e p s
    simp only [update_user]
    split
    · exact ⟨[("users", "update_one")], rfl, by decide, by simp⟩
    · exact ⟨[("users", "find_one"), ("users", "update_one")], rfl,
        by decide, by simp⟩
  · intro e s
    refine ⟨[("users", "delete_one")], ?_, rfl, by simp⟩
    simp only [delete_user_by_email]
    split <;> rfl

/-- C3 amended, witness: the create handler's calls on the concrete
scenario all target the "users" collection. -/
theorem handlers_touch_only_users_witness :
    ∃ c, (insert_user annLee DBState.empty).2.log =
        c ++ DBState.empty.log ∧
      c.length = 2 ∧ ∀ x ∈ c, x.1 = "users" :=
  handlers_touch_only_users.1 annLee DBState.empty

/-- C4: For every input whose gender is outside the `Gender` enumeration
or that has some roles element outside the `Role` enumeration, validation
fails, the create endpoint returns a validation error, and the collection
state is left untouched. -/
theorem invalid_enum_rejected (r : RawUser) (s : DBState)
    (h : (r.gender ≠ "male" ∧ r.gender ≠ "female") ∨
      ∃ x ∈ r.roles,
        x ≠ "admin" ∧ x ≠ "user" ∧ x ≠ "student" ∧ x ≠ "teacher") :
    User.validate r = none ∧
    (create_user_endpoint r s).1 = Except.error ⟨422, "validation error"⟩ ∧
    (create_user_endpoint r s).2 = s := by
  have hval : User.validate r = none := by
    rcases h with ⟨h1, h2⟩ | ⟨x, hx, hx1, hx2, hx3, hx4⟩
    · have hg : Gender.parse r.gender = none := by
        simp [Gender.parse, h1, h2]
      cases hr : parseRoles r.roles <;> simp [User.validate, hg, hr]
    · have hxp : Role.parse x = none := by
        simp [Role.parse, hx1, hx2, hx3, hx4]
      have hr : parseRoles r.roles = none := parseRoles_none x r.roles hx hxp
      cases hg : Gender.parse r.gender <;> simp [User.validate, hg, hr]
  refine ⟨hval, ?_, ?_⟩ <;> simp [create_user_endpoint, hval]

/-- C4 witness: a payload with gender "other" is rejected and the empty
collection stays empty. -/
theorem invalid_enum_rejected_witness :
    User.validate badRaw = none ∧
    (create_user_endpoint badRaw DBState.empty).1 =
      Except.error ⟨422, "validation error"⟩ ∧
    (create_user_endpoint badRaw DBState.empty).2 = DBState.empty :=
  invalid_enum_rejected badRaw DBState.empty (Or.inl (by decide))

/-- C5: For every email address and patch, the update handler returns the
raw modification-count result object as the success body when a record was
modified, and a 404 with detail "User not found or no update needed" when
zero records were modified. -/
theorem update_response_mapping (e : String) (p : UpdateUserDTO)
    (s : DBState) :
    ((coll_update_one "users" e p s).1.modified_count ≠ 0 →
      (update_user e p s).1 =
        Except.ok (coll_update_one "users" e p s).1) ∧
    ((coll_update_one "users" e p s).1.modified_count = 0 →
      (update_user e p s).1 =
        Except.error ⟨404, "User not found or no update needed"⟩) := by
  constructor
  · intro h
    simp only [update_user]
    rw [if_neg h]
  · intro h
    simp only [update_user]
    rw [if_pos h]

/-- C5 witness: an update against the empty collection modifies nothing
and is mapped to the 404 response. -/
theorem update_response_mapping_witness :
    (update_user "ann@x.com" ⟨some ["Ann", "Marie"], none⟩
      DBState.empty).1 =
      Except.error ⟨404, "User not found or no update needed"⟩ :=
  (update_response_mapping "ann@x.com" ⟨some ["Ann", "Marie"], none⟩
    DBState.empty).2 (by decide)

/-- C6: For every stored record and every patch, a successful update by
that record's email rewrites only the fields present in the patch: every
User field of the record is unchanged, and each patch field that is absent
is not overwritten.  (The record is the first match for its email in
natural order; a successful update is one whose `$set` changed the
document, which is exactly when the handler answers 200.) -/
theorem update_partial_merge_frame (e : String) (p : UpdateUserDTO)
    (l1 l2 : List Doc) (d : Doc) (s : DBState)
    (hdocs : s.docs = l1 ++ d :: l2)
    (hl1 : ∀ x ∈ l1, x.email_address ≠ e)
    (hd : d.email_address = e)
    (hchanged : applySet p d ≠ d) :
    (update_user e p s).1 = Except.ok ⟨1, 1⟩ ∧
    (update_user e p s).2.docs = l1 ++ applySet p d :: l2 ∧
    (applySet p d).id = d.id ∧
    (applySet p d).first_name = d.first_name ∧
    (applySet p d).last_name = d.last_name ∧
    (applySet p d).middle_name = d.middle_name ∧
    (applySet p d).gender = d.gender ∧
    (applySet p d).email_address = d.email_address ∧
    (applySet p d).phone_number = d.phone_number ∧
    (applySet p d).roles = d.roles ∧
    (p.other_names = none → (applySet p d).other_names = d.other_names) ∧
    (p.age = none → (applySet p d).age = d.age) := by
  have hsplit := updateFirst_split e (applySet p) l1 l2 d hl1 hd
  rw [if_neg hchanged] at hsplit
  have hco1 : (coll_update_one "users" e p s).1 = ⟨1, 1⟩ := by
    simp [coll_update_one, hdocs, hsplit]
  have hco2 : (coll_update_one "users" e p s).2.docs =
      l1 ++ applySet p d :: l2 := by
    simp [coll_update_one, hdocs, hsplit]
  refine ⟨?_, ?_, rfl, rfl, rfl, rfl, rfl, rfl, rfl, rfl, ?_, ?_⟩
  · simp only [update_user]
    rw [hco1]
    rfl
  · simp only [update_user]
    rw [hco1]
    simpa [coll_find_one_by_email] using hco2
  · intro h
    simp [applySet, h]
  · intro h
    simp [applySet, h]

/-- C6 witness: setting only `other_names` on the stored scenario record
answers 200 with modification count one. -/
theorem update_partial_merge_frame_witness :
    (update_user "ann@x.com" ⟨some ["Ann", "Marie"], none⟩ annState).1 =
      Except.ok ⟨1, 1⟩ :=
  (update_partial_merge_frame "ann@x.com" ⟨some ["Ann", "Marie"], none⟩
    [] [] annDoc annState rfl
    (fun x hx => absurd hx (List.not_mem_nil x)) rfl (by decide)).1

/-- C7: For every email address matching no stored record, the update
handler returns the 404 not-found outcome and leaves the collection's
documents exactly as they were. -/
theorem update_missing_email (e : String) (p : UpdateUserDTO) (s : DBState)
    (h : ∀ d ∈ s.docs, d.email_address ≠ e) :
    (update_user e p s).1 =
      Except.error ⟨404, "User not found or no update needed"⟩ ∧
    (update_user e p s).2.docs = s.docs := by
  have hu := updateFirst_nomatch e (applySet p) s.docs h
  have hco1 : (coll_update_one "users" e p s).1 = ⟨0, 0⟩ := by
    simp [coll_update_one, hu]
  have hco2 : (coll_update_one "users" e p s).2.docs = s.docs := by
    simp [coll_update_one, hu]
  constructor
  · simp only [update_user]
    rw [hco1]
    rfl
  · simp only [update_user]
    rw [hco1]
    exact hco2

/-- C7 witness: updating an absent email in the one-record state is a 404
and the stored documents are untouched. -/
theorem update_missing_email_witness :
    (update_user "bob@x.com" ⟨none, some 30⟩ annState).1 =
      Except.error ⟨404, "User not found or no update needed"⟩ ∧
    (update_user "bob@x.com" ⟨none, some 30⟩ annState).2.docs =
      annState.docs :=
  update_missing_email "bob@x.com" ⟨none, some 30⟩ annState (by decide)

/-- C8: For every stored record whose email occurs exactly once, deleting
by that email removes exactly that record and answers the success message
"User deleted Successfully"; a subsequent get-by-email on the same address
is a 404 "User Not Found", and a repeated delete on the same address is a
404 "User Not Found". -/
theorem delete_get_delete (e : String) (l1 l2 : List Doc) (d : Doc)
    (s : DBState)
    (hdocs : s.docs = l1 ++ d :: l2)
    (hl1 : ∀ x ∈ l1, x.email_address ≠ e)
    (hl2 : ∀ x ∈ l2, x.email_address ≠ e)
    (hd : d.email_address = e) :
    (delete_user_by_email e s).1 = Except.ok "User deleted Successfully" ∧
    (delete_user_by_email e s).2.docs = l1 ++ l2 ∧
    (read_user_by_email e (delete_user_by_email e s).2).1 =
      Except.error ⟨404, "User Not Found"⟩ ∧
    (delete_user_by_email e (delete_user_by_email e s).2).1 =
      Except.error ⟨404, "User Not Found"⟩ := by
  have hdel := deleteFirst_split e l1 l2 d hl1 hd
  have h1 : (coll_delete_one "users" e s).1 = ⟨1⟩ := by
    simp [coll_delete_one, hdocs, hdel]
  have h2 : (coll_delete_one "users" e s).2.docs = l1 ++ l2 := by
    simp [coll_delete_one, hdocs, hdel]
  have hnom : ∀ x ∈ l1 ++ l2, x.email_address ≠ e := by
    intro x hx
    rcases List.mem_append.mp hx with hx | hx
    · exact hl1 x hx
    · exact hl2 x hx
  have hS : (delete_user_by_email e s).2.docs = l1 ++ l2 := by
    simp only [delete_user_by_email]
    rw [h1]
    exact h2
  have hfind : findByEmail e (l1 ++ l2) = none :=
    findByEmail_nomatch e (l1 ++ l2) hnom
  have hdel2 : deleteFirst e (l1 ++ l2) = (l1 ++ l2, 0) :=
    deleteFirst_nomatch e (l1 ++ l2) hnom
  refine ⟨?_, hS, ?_, ?_⟩
  · simp only [delete_user_by_email]
    rw [h1]
    rfl
  · simp only [read_user_by_email, coll_find_one_by_email, hS, hfind]
  · generalize hq : (delete_user_by_email e s).2 = t at hS
    simp only [delete_user_by_email, coll_delete_one]
    rw [hS, hdel2]
    rfl

/-- C8 witness: the concrete scenario of the spec on the one-record
state. -/
theorem delete_get_delete_witness :
    (delete_user_by_email "ann@x.com" annState).1 =
      Except.ok "User deleted Successfully" ∧
    (delete_user_by_email "ann@x.com" annState).2.docs =
      ([] : List Doc) ++ [] ∧
    (read_user_by_email "ann@x.com"
      (delete_user_by_email "ann@x.com" annState).2).1 =
      Except.error ⟨404, "User Not Found"⟩ ∧
    (delete_user_by_email "ann@x.com"
      (delete_user_by_email "ann@x.com" annState).2).1 =
      Except.error ⟨404, "User Not Found"⟩ :=
  delete_get_delete "ann@x.com" [] [] annDoc annState rfl
    (fun x hx => absurd hx (List.not_mem_nil x))
    (fun x hx => absurd hx (List.not_mem_nil x)) rfl

/-- C9: The list handler after zero creates returns the empty sequence,
and after N creates with pairwise distinct emails returns exactly N
records. -/
theorem list_after_creates (us : List User)
    (hdist : (us.map User.email_address).Nodup) :
    (read_users (createMany [] DBState.empty)).1 =
      Except.ok ([] : List Doc) ∧
    ∃ l : List Doc,
      (read_users (createMany us DBState.empty)).1 = Except.ok l ∧
      l.length = us.length := by
  refine ⟨rfl, (createMany us DBState.empty).docs, rfl, ?_⟩
  have h := createMany_length us DBState.empty
  simpa [DBState.empty] using h

/-- C9 witness: one create with one (trivially distinct) email yields a
one-record listing. -/
theorem list_after_creates_witness :
    (read_users (createMany [] DBState.empty)).1 =
      Except.ok ([] : List Doc) ∧
    ∃ l : List Doc,
      (read_users (createMany [annLee] DBState.empty)).1 = Except.ok l ∧
      l.length = [annLee].length :=
  list_after_creates [annLee] (by simp)

/-- C10: For every stored record, an update on its email whose patch sets
fields to values already equal to the stored values matches the record
(`matched_count` is one) yet modifies nothing (`modified_count` is zero),
so the handler answers the 404 "User not found or no update needed" even
though the record exists and was matched. -/
theorem update_noop_matched_404 (e : String) (p : UpdateUserDTO)
    (l1 l2 : List Doc) (d : Doc) (s : DBState)
    (hdocs : s.docs = l1 ++ d :: l2)
    (hl1 : ∀ x ∈ l1, x.email_address ≠ e)
    (hd : d.email_address = e)
    (hnoop : applySet p d = d) :
    (coll_update_one "users" e p s).1.matched_count = 1 ∧
    (coll_update_one "users" e p s).1.modified_count = 0 ∧
    (update_user e p s).1 =
      Except.error ⟨404, "User not found or no update needed"⟩ := by
  have hsplit := updateFirst_split e (applySet p) l1 l2 d hl1 hd
  rw [if_pos hnoop] at hsplit
  have hco1 : (coll_update_one "users" e p s).1 = ⟨1, 0⟩ := by
    simp [coll_update_one, hdocs, hsplit]
  refine ⟨by rw [hco1], by rw [hco1], ?_⟩
  simp only [update_user]
  rw [hco1]
  rfl

/-- C10 witness: re-sending the already-stored values of both patch
fields matches the record but modifies nothing, so the handler answers
404. -/
theorem update_noop_matched_404_witness :
    (coll_update_one "users" "ann@x.com" ⟨some ["Ann", "Marie"], some 21⟩
      annState2).1.matched_count = 1 ∧
    (coll_update_one "users" "ann@x.com" ⟨some ["Ann", "Marie"], some 21⟩
      annState2).1.modified_count = 0 ∧
    (update_user "ann@x.com" ⟨some ["Ann", "Marie"], some 21⟩
      annState2).1 =
      Except.error ⟨404, "User not found or no update needed"⟩ :=
  update_noop_matched_404 "ann@x.com" ⟨some ["Ann", "Marie"], some 21⟩
    [] [] annDoc2 annState2 rfl
    (fun x hx => absurd hx (List.not_mem_nil x)) rfl (by decide)

end FastapiNosql
